import Mathlib

/-!
Shallow embedding of the messaging core of the chat backend
(backend-rs: services/messaging.rs, api/websocket.rs, models/*, error.rs).

Modelling conventions:
* Relational tables (conversations, participants, messages, receipts, users)
  are lists of row structures; SQL queries become list operations in table
  order (a sqlx fetch_optional is find? on the list).
* Uuid values are modelled as naturals drawn from a fresh counter (nextId in
  the store); NOW() is the store's now field.
* Fallible external calls are driven by an oracle (a list of booleans, one
  per call, true meaning the call fails): the per-statement sqlx calls of
  mark_as_delivered / mark_as_read consume oracle flags (these statements are
  not wrapped in a transaction, so earlier effects persist on a later
  failure), and each redis publish in the send fan-out consumes one flag.
  Operations whose claims only concern their success-path logic
  (conversation creation, reads, delete) are modelled on that path; their
  multi-insert transactions commit atomically, as sqlx transactions do.
* The redis publishes performed by notify_participants are logged in the
  store's published field; message serialization is not modelled.
* The User row carries the id used by joins; its profile columns are never
  read by any operation modelled here.
-/

namespace Chat

inductive ConversationType
  | direct
  | group
  deriving DecidableEq

inductive ParticipantRole
  | owner
  | admin
  | member
  deriving DecidableEq

inductive MessageType
  | text
  | image
  | video
  | audio
  | file
  | sticker
  | system
  deriving DecidableEq

inductive MessageStatus
  | sending
  | sent
  | delivered
  | read
  | failed
  deriving DecidableEq

inductive ReceiptType
  | delivered
  | read
  deriving DecidableEq

/-- The error variants of error.rs reachable from the messaging service;
all sqlx failures are Database, all redis failures are Redis. -/
inductive AppError
  | NotParticipant
  | ConversationNotFound
  | MessageNotFound
  | Database
  | Redis
  deriving DecidableEq

structure Conversation where
  id : Nat
  conversation_type : ConversationType
  name : Option String
  avatar_url : Option String
  created_by : Nat
  last_message_at : Option Nat
  created_at : Nat
  updated_at : Nat
  deriving DecidableEq

structure Participant where
  id : Nat
  conversation_id : Nat
  user_id : Nat
  role : ParticipantRole
  joined_at : Nat
  left_at : Option Nat
  muted_until : Option Nat
  deriving DecidableEq

structure Message where
  id : Nat
  conversation_id : Nat
  sender_id : Nat
  message_type : MessageType
  content : List Nat
  sticker_id : Option Nat
  reply_to_id : Option Nat
  status : MessageStatus
  edited_at : Option Nat
  deleted_at : Option Nat
  created_at : Nat
  deriving DecidableEq

structure Receipt where
  id : Nat
  message_id : Nat
  user_id : Nat
  receipt_type : ReceiptType
  created_at : Nat
  deriving DecidableEq

structure User where
  id : Nat
  deriving DecidableEq

structure ParticipantWithUser where
  participant : Participant
  user : Option User
  deriving DecidableEq

/-- The relational store plus the modelled external effects: published is
the log of redis publishes (recipient user id, message id); nextId is the
source of fresh Uuid values; now is the clock read by NOW(). -/
structure Store where
  users : List User
  conversations : List Conversation
  participants : List Participant
  messages : List Message
  receipts : List Receipt
  published : List (Nat × Nat)
  nextId : Nat
  now : Nat
  deriving DecidableEq

/-- Failure oracle for external calls: one flag per call, true = the call
fails. A missing flag means success. -/
abbrev Oracle := List Bool

structure ConversationWithDetails where
  conversation : Conversation
  participants : List ParticipantWithUser
  unread_count : Nat
  last_message : Option Message
  deriving DecidableEq

/-- The participant-membership query shared by the service operations:
one row in participants for the conversation and user with left_at NULL. -/
def isActiveParticipant (st : Store) (conversation_id user_id : Nat) : Bool :=
  st.participants.any fun p =>
    p.conversation_id == conversation_id && p.user_id == user_id && p.left_at == none

/-- The existing-conversation query of create_direct_conversation: a direct
conversation joined to an active participant row for each of the two users. -/
def findDirect (st : Store) (user_id other_user_id : Nat) : Option Conversation :=
  st.conversations.find? fun c =>
    c.conversation_type == ConversationType.direct
      && (st.participants.any fun p =>
            p.conversation_id == c.id && p.user_id == user_id && p.left_at == none)
      && (st.participants.any fun p =>
            p.conversation_id == c.id && p.user_id == other_user_id && p.left_at == none)

def hasReadReceipt (st : Store) (message_id user_id : Nat) : Bool :=
  st.receipts.any fun r =>
    r.message_id == message_id && r.user_id == user_id
      && r.receipt_type == ReceiptType.read

/-- The unread-count query of get_conversation: non-deleted messages of the
conversation from other senders with no read receipt from the user. -/
def unreadCount (st : Store) (conversation_id user_id : Nat) : Nat :=
  st.messages.countP fun m =>
    m.conversation_id == conversation_id && m.sender_id != user_id
      && m.deleted_at == none && !(hasReadReceipt st m.id user_id)

/-- ORDER BY created_at DESC: newest first. -/
def msgNewer (a b : Message) : Prop := b.created_at ≤ a.created_at

instance : DecidableRel msgNewer :=
  fun a b => inferInstanceAs (Decidable (b.created_at ≤ a.created_at))

def sortNewestFirst (l : List Message) : List Message :=
  List.insertionSort msgNewer l

/-- The last-message query of get_conversation. -/
def lastMessage (st : Store) (conversation_id : Nat) : Option Message :=
  (sortNewestFirst (st.messages.filter fun m =>
    m.conversation_id == conversation_id && m.deleted_at == none)).head?

/-- MessagingService::get_conversation: participant gate, then the
conversation row, active participants joined with users, unread count and
last message. -/
def get_conversation (conversation_id user_id : Nat) (st : Store) :
    Except AppError ConversationWithDetails :=
  if !(isActiveParticipant st conversation_id user_id) then
    Except.error AppError.NotParticipant
  else
    match st.conversations.find? (fun c => c.id == conversation_id) with
    | none => Except.error AppError.ConversationNotFound
    | some conversation =>
      let parts := st.participants.filter fun p =>
        p.conversation_id == conversation_id && p.left_at == none
      Except.ok
        { conversation := conversation
          participants := parts.map fun p =>
            { participant := p, user := st.users.find? (fun u => u.id == p.user_id) }
          unread_count := unreadCount st conversation_id user_id
          last_message := lastMessage st conversation_id }

/-- MessagingService::create_direct_conversation: return the existing active
direct conversation of the pair if the join query finds one, else insert the
conversation and both participant rows in one transaction. -/
def create_direct_conversation (user_id other_user_id : Nat) (st : Store) :
    Store × Except AppError ConversationWithDetails :=
  match findDirect st user_id other_user_id with
  | some conv => (st, get_conversation conv.id user_id st)
  | none =>
    let conv : Conversation :=
      { id := st.nextId, conversation_type := ConversationType.direct, name := none
        avatar_url := none, created_by := user_id, last_message_at := none
        created_at := st.now, updated_at := st.now }
    let p1 : Participant :=
      { id := st.nextId + 1, conversation_id := st.nextId, user_id := user_id
        role := ParticipantRole.member, joined_at := st.now, left_at := none
        muted_until := none }
    let p2 : Participant := { p1 with id := st.nextId + 2, user_id := other_user_id }
    let st1 : Store :=
      { st with
        conversations := st.conversations ++ [conv]
        participants := st.participants ++ [p1, p2]
        nextId := st.nextId + 3 }
    (st1, get_conversation conv.id user_id st1)

/-- The member-insert loop of create_group_conversation, one row per list
element in order, each with a fresh id. -/
def memberRows (nid conversation_id now : Nat) : List Nat → List Participant
  | [] => []
  | m :: ms =>
    { id := nid, conversation_id := conversation_id, user_id := m
      role := ParticipantRole.member, joined_at := now, left_at := none
      muted_until := none } :: memberRows (nid + 1) conversation_id now ms

/-- MessagingService::create_group_conversation: insert the conversation,
the caller as owner, and one member row per member id different from the
caller (duplicates in member_ids are not collapsed), in one transaction. -/
def create_group_conversation (user_id : Nat) (name : String) (member_ids : List Nat)
    (st : Store) : Store × Except AppError ConversationWithDetails :=
  let conv : Conversation :=
    { id := st.nextId, conversation_type := ConversationType.group, name := some name
      avatar_url := none, created_by := user_id, last_message_at := none
      created_at := st.now, updated_at := st.now }
  let owner : Participant :=
    { id := st.nextId + 1, conversation_id := st.nextId, user_id := user_id
      role := ParticipantRole.owner, joined_at := st.now, left_at := none
      muted_until := none }
  let members := member_ids.filter fun m => m != user_id
  let st1 : Store :=
    { st with
      conversations := st.conversations ++ [conv]
      participants := st.participants ++ (owner :: memberRows (st.nextId + 2) st.nextId st.now members)
      nextId := st.nextId + 2 + members.length }
  (st1, get_conversation conv.id user_id st1)

/-- The fresh message row inserted by send_message: status is sent, the id
and timestamp come from the store. -/
def newMessage (st : Store) (conversation_id sender_id : Nat) (message_type : MessageType)
    (content : List Nat) (sticker_id reply_to_id : Option Nat) : Message :=
  { id := st.nextId, conversation_id := conversation_id, sender_id := sender_id
    message_type := message_type, content := content, sticker_id := sticker_id
    reply_to_id := reply_to_id, status := MessageStatus.sent, edited_at := none
    deleted_at := none, created_at := st.now }

/-- UPDATE conversations SET last_message_at = NOW(), updated_at = NOW(). -/
def touchConversation (st : Store) (conversation_id : Nat) : Store :=
  { st with
    conversations := st.conversations.map fun c =>
      if c.id == conversation_id then
        { c with last_message_at := some st.now, updated_at := st.now }
      else c }

/-- The fan-out recipients of notify_participants / broadcast_typing: every
active participant of the conversation other than the sender. -/
def notifyTargets (st : Store) (conversation_id sender_id : Nat) : List Nat :=
  (st.participants.filter fun p =>
    p.conversation_id == conversation_id && p.user_id != sender_id
      && p.left_at == none).map fun p => p.user_id

/-- One redis publish per recipient; each publish consumes one oracle flag
and a failing publish aborts the loop with a Redis error, as the return of
publish_message does in notify_participants. -/
def publishAll (o : Oracle) (targets : List Nat) (message_id : Nat) (st : Store) :
    Store × Except AppError Unit :=
  match targets with
  | [] => (st, Except.ok ())
  | t :: ts =>
    if o.headD false then (st, Except.error AppError.Redis)
    else
      publishAll (o.drop 1) ts message_id
        { st with published := st.published ++ [(t, message_id)] }

/-- MessagingService::notify_participants: query the recipients and publish
the new_message event for each of them. -/
def notify_participants (o : Oracle) (conversation_id sender_id : Nat)
    (message : Message) (st : Store) : Store × Except AppError Unit :=
  publishAll o (notifyTargets st conversation_id sender_id) message.id st

/-- MessagingService::send_message: participant gate, insert the message
with status sent, advance last_message_at, then fan out; an error of
notify_participants is propagated to the caller. -/
def send_message (o : Oracle) (conversation_id sender_id : Nat)
    (message_type : MessageType) (content : List Nat)
    (sticker_id reply_to_id : Option Nat) (st : Store) :
    Store × Except AppError Message :=
  if !(isActiveParticipant st conversation_id sender_id) then
    (st, Except.error AppError.NotParticipant)
  else
    match notify_participants o conversation_id sender_id
        (newMessage st conversation_id sender_id message_type content sticker_id reply_to_id)
        (touchConversation
          { st with
            messages := st.messages ++ [newMessage st conversation_id sender_id
              message_type content sticker_id reply_to_id]
            nextId := st.nextId + 1 } conversation_id) with
    | (st3, Except.ok _) =>
      (st3, Except.ok (newMessage st conversation_id sender_id message_type content
        sticker_id reply_to_id))
    | (st3, Except.error e) => (st3, Except.error e)

/-- MessagingService::get_messages: participant gate; with a before id the
rows strictly older than that message's timestamp (none when the id resolves
to no row, as the NULL comparison matches nothing), newest first, then
OFFSET and LIMIT. -/
def get_messages (conversation_id user_id : Nat) (limit offset : Nat)
    (before : Option Nat) (st : Store) : Except AppError (List Message) :=
  if !(isActiveParticipant st conversation_id user_id) then
    Except.error AppError.NotParticipant
  else
    let base := st.messages.filter fun m =>
      m.conversation_id == conversation_id && m.deleted_at == none
    let chosen :=
      match before with
      | some before_id =>
        match st.messages.find? (fun m => m.id == before_id) with
        | some mb => base.filter fun m => decide (m.created_at < mb.created_at)
        | none => []
      | none => base
    Except.ok (((sortNewestFirst chosen).drop offset).take limit)

/-- INSERT INTO receipts ... ON CONFLICT (message_id, user_id, type) DO
NOTHING: append a fresh row unless one with the same triple exists. -/
def insertReceipt (st : Store) (message_id user_id : Nat) (receipt_type : ReceiptType) :
    Store :=
  if st.receipts.any fun r =>
      r.message_id == message_id && r.user_id == user_id
        && r.receipt_type == receipt_type then st
  else
    { st with
      receipts := st.receipts ++
        [{ id := st.nextId, message_id := message_id, user_id := user_id
           receipt_type := receipt_type, created_at := st.now }]
      nextId := st.nextId + 1 }

/-- UPDATE messages SET status = new WHERE id = message_id AND the current
status satisfies allowed. -/
def setStatusIf (msgs : List Message) (message_id : Nat)
    (allowed : MessageStatus → Bool) (new : MessageStatus) : List Message :=
  msgs.map fun m =>
    if m.id == message_id && allowed m.status then { m with status := new } else m

/-- MessagingService::mark_as_delivered: insert the delivered receipt
idempotently, then advance status sent → delivered; no participant or
existence check. Each statement consumes one oracle flag. -/
def mark_as_delivered (o : Oracle) (message_id user_id : Nat) (st : Store) :
    Store × Except AppError Unit :=
  if o.headD false then (st, Except.error AppError.Database)
  else if (o.drop 1).headD false then
    (insertReceipt st message_id user_id ReceiptType.delivered,
     Except.error AppError.Database)
  else
    ({ insertReceipt st message_id user_id ReceiptType.delivered with
       messages := setStatusIf
         (insertReceipt st message_id user_id ReceiptType.delivered).messages message_id
         (fun s => s == MessageStatus.sent) MessageStatus.delivered },
     Except.ok ())

/-- MessagingService::mark_as_read: insert the delivered then the read
receipt idempotently, then advance status sent | delivered → read; no
participant or existence check. Each statement consumes one oracle flag. -/
def mark_as_read (o : Oracle) (message_id user_id : Nat) (st : Store) :
    Store × Except AppError Unit :=
  if o.headD false then (st, Except.error AppError.Database)
  else if (o.drop 1).headD false then
    (insertReceipt st message_id user_id ReceiptType.delivered,
     Except.error AppError.Database)
  else if (o.drop 2).headD false then
    (insertReceipt (insertReceipt st message_id user_id ReceiptType.delivered)
       message_id user_id ReceiptType.read,
     Except.error AppError.Database)
  else
    ({ insertReceipt (insertReceipt st message_id user_id ReceiptType.delivered)
         message_id user_id ReceiptType.read with
       messages := setStatusIf
         (insertReceipt (insertReceipt st message_id user_id ReceiptType.delivered)
           message_id user_id ReceiptType.read).messages message_id
         (fun s => s == MessageStatus.sent || s == MessageStatus.delivered)
         MessageStatus.read },
     Except.ok ())

/-- MessagingService::delete_message: UPDATE ... SET deleted_at = NOW()
WHERE id AND sender_id AND deleted_at IS NULL; MessageNotFound when the
update affected no row. -/
def delete_message (message_id user_id : Nat) (st : Store) :
    Store × Except AppError Unit :=
  let st1 : Store :=
    { st with
      messages := st.messages.map fun m =>
        if m.id == message_id && m.sender_id == user_id && m.deleted_at == none then
          { m with deleted_at := some st.now }
        else m }
  if (st.messages.countP fun m =>
      m.id == message_id && m.sender_id == user_id && m.deleted_at == none) = 0 then
    (st1, Except.error AppError.MessageNotFound)
  else (st1, Except.ok ())

/-- A receipt-marking call, for stating that no sequence of markings
regresses a message status. -/
inductive MarkOp
  | deliver (message_id user_id : Nat)
  | markRead (message_id user_id : Nat)

def applyMark (st : Store) : MarkOp → Store
  | MarkOp.deliver mid uid => (mark_as_delivered [] mid uid st).1
  | MarkOp.markRead mid uid => (mark_as_read [] mid uid st).1

def applyMarks (st : Store) : List MarkOp → Store
  | [] => st
  | op :: ops => applyMarks (applyMark st op) ops

/-- The status column of the message row with the given id. -/
def statusOf (st : Store) (message_id : Nat) : Option MessageStatus :=
  (st.messages.find? fun m => m.id == message_id).map fun m => m.status

/-- Position of a status in the forward order sending → sent → delivered →
read; failed is terminal for the marking operations, which never touch it. -/
def statusRank : Option MessageStatus → Nat
  | none => 0
  | some MessageStatus.sending => 1
  | some MessageStatus.failed => 1
  | some MessageStatus.sent => 2
  | some MessageStatus.delivered => 3
  | some MessageStatus.read => 4

def countReceipt (st : Store) (message_id user_id : Nat) (receipt_type : ReceiptType) : Nat :=
  st.receipts.countP fun r =>
    r.message_id == message_id && r.user_id == user_id && r.receipt_type == receipt_type

namespace WsHub

/-- WsHub.clients: the per-process connection registry, a map from the
formatted client id to the outbound channel (modelled by a handle number);
modelled as an association list with at most one entry per key. -/
abbrev Clients := List (String × Nat)

/-- WsHub::register: HashMap insert, replacing any prior entry for the key. -/
def register (clients : Clients) (client_id : String) (channel : Nat) : Clients :=
  (clients.filter fun e => e.1 != client_id) ++ [(client_id, channel)]

/-- WsHub::unregister: HashMap remove of the key, unconditionally; the
stored channel is not consulted (the method does not receive one). -/
def unregister (clients : Clients) (client_id : String) : Clients :=
  clients.filter fun e => e.1 != client_id

def lookup (clients : Clients) (client_id : String) : Option Nat :=
  (clients.find? fun e => e.1 == client_id).map fun e => e.2

end WsHub

/-- Active-membership row count for one (conversation, user) pair, the
quantity the participant-uniqueness invariant bounds by one. -/
def countMembership (st : Store) (conversation_id user_id : Nat) : Nat :=
  st.participants.countP fun p =>
    p.conversation_id == conversation_id && p.user_id == user_id && p.left_at == none

/-! ### Concrete fixtures used by witnesses and counterexamples -/

/-- A store with no rows and fresh-id counter 100. -/
def emptyStore : Store :=
  { users := [], conversations := [], participants := [], messages := []
    receipts := [], published := [], nextId := 100, now := 7 }

/-- A direct conversation 1 between users 10 and 11 with one sent message 5
from user 10; user 99 is not a participant. -/
def fixtureStore : Store :=
  { users := []
    conversations := [⟨1, ConversationType.direct, none, none, 10, none, 0, 0⟩]
    participants := [⟨2, 1, 10, ParticipantRole.member, 0, none, none⟩,
                     ⟨3, 1, 11, ParticipantRole.member, 0, none, none⟩]
    messages := [⟨5, 1, 10, MessageType.text, [], none, none, MessageStatus.sent, none, none, 4⟩]
    receipts := [], published := [], nextId := 50, now := 9 }

end Chat

deriving instance DecidableEq for Except

namespace Chat

/-! ### Helper lemmas -/

theorem insertReceipt_messages (st : Store) (mid uid : Nat) (t : ReceiptType) :
    (insertReceipt st mid uid t).messages = st.messages := by
  unfold insertReceipt; split <;> rfl

theorem map_if_of_all_false {α : Type} (l : List α) (p : α → Bool) (f : α → α)
    (h : ∀ a ∈ l, p a = false) : (l.map fun a => if p a then f a else a) = l := by
  induction l with
  | nil => rfl
  | cons a t ih =>
    rw [List.map_cons]
    rw [if_neg (by simp [h a (List.mem_cons_self a t)])]
    rw [ih fun x hx => h x (List.mem_cons_of_mem a hx)]

theorem insertReceipt_participants (st : Store) (mid uid : Nat) (t : ReceiptType) :
    (insertReceipt st mid uid t).participants = st.participants := by
  unfold insertReceipt; split <;> rfl

/-! ### C7: connection-registry unregister -/

/-- Claim C7 counterexample: after a newer registration of channel 2 for the
same key, an unregister issued by the stale channel-1 connection removes the
entry anyway — the registry ends empty, not holding the newer channel as the
claim states. -/
theorem unregister_unconditional_cex :
    WsHub.unregister (WsHub.register (WsHub.register [] ("u:1") 1) ("u:1") 2) ("u:1") = []
      ∧ ([] : WsHub.Clients) ≠ [(("u:1"), 2)] := by
  decide

/-- Claim C7 (amended): unregister removes the entry for the key
unconditionally — the stored channel is never compared with the caller's
(the method receives none) — so a late unregister deletes a newer
registration for the same key; entries under other keys are untouched. -/
theorem unregister_removes_unconditionally :
    ∀ (clients : WsHub.Clients) (client_id other : String),
      WsHub.lookup (WsHub.unregister clients client_id) client_id = none ∧
      (other ≠ client_id →
        WsHub.lookup (WsHub.unregister clients client_id) other
          = WsHub.lookup clients other) := by
  intro clients client_id other
  constructor
  · unfold WsHub.lookup WsHub.unregister
    have hnone : (clients.filter fun e => e.1 != client_id).find?
        (fun e => e.1 == client_id) = none := by
      rw [List.find?_eq_none]
      intro e he hbeq
      rw [List.mem_filter] at he
      rw [beq_iff_eq] at hbeq
      have h2 := he.2
      rw [hbeq] at h2
      simp at h2
    rw [hnone]
    rfl
  · intro hne
    unfold WsHub.lookup WsHub.unregister
    congr 1
    induction clients with
    | nil => rfl
    | cons e t ih =>
      simp only [List.filter_cons]
      by_cases hk : e.1 = client_id
      · have h1 : (e.1 != client_id) = false := by simp [hk]
        have h2 : (e.1 == other) = false := by
          rw [beq_eq_false_iff_ne, hk]
          exact fun h => hne h.symm
        rw [h1, if_neg (by decide)]
        rw [@List.find?_cons_of_neg _ (fun x => x.1 == other) e t (by simp [h2])]
        exact ih
      · have h1 : (e.1 != client_id) = true := by simp [hk]
        rw [h1, if_pos rfl]
        by_cases h2 : (e.1 == other) = true
        · rw [@List.find?_cons_of_pos _ (fun x => x.1 == other) e
            (t.filter fun x => x.1 != client_id) h2]
          rw [@List.find?_cons_of_pos _ (fun x => x.1 == other) e t h2]
        · rw [@List.find?_cons_of_neg _ (fun x => x.1 == other) e
            (t.filter fun x => x.1 != client_id) h2]
          rw [@List.find?_cons_of_neg _ (fun x => x.1 == other) e t h2]
          exact ih

/-- Claim C7 amended witness at a concrete registry. -/
theorem unregister_removes_unconditionally_w :
    WsHub.lookup (WsHub.unregister [(("u:1"), 2), (("v:1"), 5)] ("u:1")) ("u:1") = none ∧
      WsHub.lookup (WsHub.unregister [(("u:1"), 2), (("v:1"), 5)] ("u:1")) ("v:1")
        = WsHub.lookup [(("u:1"), 2), (("v:1"), 5)] ("v:1") :=
  ⟨(unregister_removes_unconditionally [(("u:1"), 2), (("v:1"), 5)] ("u:1") ("v:1")).1,
   (unregister_removes_unconditionally [(("u:1"), 2), (("v:1"), 5)] ("u:1") ("v:1")).2
     (by decide)⟩

/-! ### C10: the marking operations perform no existence check -/

/-- Claim C10: for every message id — whether or not any message row has
that id — mark_as_delivered and mark_as_read return either success or the
store error of a failed statement, never MessageNotFound or
ConversationNotFound. -/
theorem marks_no_existence_check :
    ∀ (o : Oracle) (message_id user_id : Nat) (st : Store),
      ((mark_as_delivered o message_id user_id st).2 = Except.ok () ∨
        (mark_as_delivered o message_id user_id st).2 = Except.error AppError.Database) ∧
      ((mark_as_read o message_id user_id st).2 = Except.ok () ∨
        (mark_as_read o message_id user_id st).2 = Except.error AppError.Database) := by
  intro o message_id user_id st
  constructor
  · unfold mark_as_delivered
    by_cases h1 : o.headD false = true
    · rw [if_pos h1]; exact Or.inr rfl
    · rw [if_neg h1]
      by_cases h2 : (o.drop 1).headD false = true
      · rw [if_pos h2]; exact Or.inr rfl
      · rw [if_neg h2]; exact Or.inl rfl
  · unfold mark_as_read
    by_cases h1 : o.headD false = true
    · rw [if_pos h1]; exact Or.inr rfl
    · rw [if_neg h1]
      by_cases h2 : (o.drop 1).headD false = true
      · rw [if_pos h2]; exact Or.inr rfl
      · rw [if_neg h2]
        by_cases h3 : (o.drop 2).headD false = true
        · rw [if_pos h3]; exact Or.inr rfl
        · rw [if_neg h3]; exact Or.inl rfl

/-! ### C9: delete_message -/

/-- Claim C9: delete_message soft-deletes (sets deleted_at, keeping the row)
exactly when an undeleted message with that id owned by that sender exists;
otherwise it returns MessageNotFound and changes nothing. -/
theorem delete_message_soft_delete :
    ∀ (st : Store) (message_id user_id : Nat),
      ((st.messages.any fun m =>
          m.id == message_id && m.sender_id == user_id && m.deleted_at == none) = true →
        (delete_message message_id user_id st).2 = Except.ok () ∧
        ((delete_message message_id user_id st).1.messages.any fun m =>
          m.id == message_id && m.deleted_at == some st.now) = true ∧
        (delete_message message_id user_id st).1.messages.length = st.messages.length ∧
        (∀ m ∈ st.messages,
          (m.id == message_id && m.sender_id == user_id && m.deleted_at == none) = false →
          m ∈ (delete_message message_id user_id st).1.messages)) ∧
      ((st.messages.any fun m =>
          m.id == message_id && m.sender_id == user_id && m.deleted_at == none) = false →
        (delete_message message_id user_id st).2 = Except.error AppError.MessageNotFound ∧
        (delete_message message_id user_id st).1 = st) := by
  intro st message_id user_id
  constructor
  · intro hany
    have hcount : (st.messages.countP fun m =>
        m.id == message_id && m.sender_id == user_id && m.deleted_at == none) ≠ 0 := by
      intro h0
      rw [List.countP_eq_zero] at h0
      rw [List.any_eq_true] at hany
      obtain ⟨m, hm, hp⟩ := hany
      exact h0 m hm hp
    refine ⟨?_, ?_, ?_, ?_⟩
    · simp [delete_message, hcount]
    · rw [List.any_eq_true] at hany
      obtain ⟨m, hm, hp⟩ := hany
      rw [List.any_eq_true]
      refine ⟨{ m with deleted_at := some st.now }, ?_, ?_⟩
      · simp only [delete_message]
        split <;>
          · simp only [List.mem_map]
            exact ⟨m, hm, by rw [if_pos hp]⟩
      · simp only [Bool.and_eq_true, beq_iff_eq] at hp ⊢
        exact ⟨hp.1.1, trivial⟩
    · simp only [delete_message]
      split <;> simp
    · intro m hm hmiss
      simp only [delete_message]
      split <;>
        · simp only [List.mem_map]
          exact ⟨m, hm, by rw [if_neg (by simp [hmiss])]⟩
  · intro hany
    have hcount : (st.messages.countP fun m =>
        m.id == message_id && m.sender_id == user_id && m.deleted_at == none) = 0 := by
      rw [List.countP_eq_zero]
      intro m hm hp
      rw [← Bool.not_eq_true, List.any_eq_true] at hany
      exact hany ⟨m, hm, hp⟩
    have hall : ∀ m ∈ st.messages,
        (m.id == message_id && m.sender_id == user_id && m.deleted_at == none) = false := by
      intro m hm
      rw [← Bool.not_eq_true]
      exact (List.countP_eq_zero.mp hcount) m hm
    constructor
    · simp [delete_message, hcount]
    · have hmap := map_if_of_all_false st.messages
        (fun m => m.id == message_id && m.sender_id == user_id && m.deleted_at == none)
        (fun m => { m with deleted_at := some st.now }) hall
      simp only [delete_message]
      rw [hmap, if_pos hcount]

/-- Claim C9 witness: in the fixture, sender 10 can soft-delete message 5;
user 11 (not the sender) gets MessageNotFound and the store is unchanged. -/
theorem delete_message_soft_delete_w :
    ((delete_message 5 10 fixtureStore).2 = Except.ok () ∧
      ((delete_message 5 10 fixtureStore).1.messages.any fun m =>
        m.id == 5 && m.deleted_at == some fixtureStore.now) = true ∧
      (delete_message 5 10 fixtureStore).1.messages.length = fixtureStore.messages.length ∧
      (∀ m ∈ fixtureStore.messages,
        (m.id == 5 && m.sender_id == 10 && m.deleted_at == none) = false →
        m ∈ (delete_message 5 10 fixtureStore).1.messages)) ∧
    ((delete_message 5 11 fixtureStore).2 = Except.error AppError.MessageNotFound ∧
      (delete_message 5 11 fixtureStore).1 = fixtureStore) :=
  ⟨(delete_message_soft_delete fixtureStore 5 10).1 (by decide),
   (delete_message_soft_delete fixtureStore 5 11).2 (by decide)⟩

/-! ### C1: NotParticipant gating -/

/-- Claim C1 counterexample: user 99 has no active membership in
conversation 1, yet marking message 5 of that conversation as delivered or
read succeeds — the marking operations never return NotParticipant, contrary
to the claim. -/
theorem mark_nonparticipant_ok_cex :
    isActiveParticipant fixtureStore 1 99 = false ∧
    (mark_as_delivered [] 5 99 fixtureStore).2 = Except.ok () ∧
    (mark_as_read [] 5 99 fixtureStore).2 = Except.ok () ∧
    (mark_as_delivered [] 5 99 fixtureStore).2 ≠ Except.error AppError.NotParticipant := by
  decide

/-- Claim C1 (amended): a user with no active membership receives
NotParticipant from send_message and get_messages, but mark_as_delivered
and mark_as_read perform no participant check at all and succeed on their
success path for any caller. -/
theorem notParticipant_send_list_but_not_marks :
    ∀ (st : Store) (conversation_id user_id : Nat),
      isActiveParticipant st conversation_id user_id = false →
      (∀ (message_type : MessageType) (content : List Nat)
          (sticker_id reply_to_id : Option Nat),
        (send_message [] conversation_id user_id message_type content
            sticker_id reply_to_id st).2 = Except.error AppError.NotParticipant) ∧
      (∀ (limit offset : Nat) (before : Option Nat),
        get_messages conversation_id user_id limit offset before st
          = Except.error AppError.NotParticipant) ∧
      (∀ message_id : Nat,
        (mark_as_delivered [] message_id user_id st).2 = Except.ok () ∧
        (mark_as_read [] message_id user_id st).2 = Except.ok ()) := by
  intro st conversation_id user_id h
  refine ⟨?_, ?_, ?_⟩
  · intro message_type content sticker_id reply_to_id
    simp [send_message, h]
  · intro limit offset before
    simp [get_messages, h]
  · intro message_id
    exact ⟨rfl, rfl⟩

/-- Claim C1 amended witness: concrete instance for user 99 in the
fixture. -/
theorem notParticipant_send_list_but_not_marks_w :
    (send_message [] 1 99 MessageType.text [] none none fixtureStore).2
        = Except.error AppError.NotParticipant ∧
    get_messages 1 99 50 0 none fixtureStore = Except.error AppError.NotParticipant ∧
    (mark_as_delivered [] 5 99 fixtureStore).2 = Except.ok () ∧
    (mark_as_read [] 5 99 fixtureStore).2 = Except.ok () :=
  ⟨(notParticipant_send_list_but_not_marks fixtureStore 1 99 (by decide)).1
      MessageType.text [] none none,
   (notParticipant_send_list_but_not_marks fixtureStore 1 99 (by decide)).2.1 50 0 none,
   ((notParticipant_send_list_but_not_marks fixtureStore 1 99 (by decide)).2.2 5).1,
   ((notParticipant_send_list_but_not_marks fixtureStore 1 99 (by decide)).2.2 5).2⟩

/-! ### Status and receipt helper lemmas -/

theorem find?_map_eqId (k : Nat) (l : List Message) (f : Message → Message)
    (h : ∀ m, (f m).id = m.id) :
    ((l.map f).find? fun m => m.id == k) = (l.find? fun m => m.id == k).map f := by
  induction l with
  | nil => rfl
  | cons a t ih =>
    rw [List.map_cons]
    by_cases ha : (a.id == k) = true
    · rw [@List.find?_cons_of_pos _ (fun m => m.id == k) (f a) (t.map f)
        (by simp only [h a]; exact ha)]
      rw [@List.find?_cons_of_pos _ (fun m => m.id == k) a t ha]
      rfl
    · rw [@List.find?_cons_of_neg _ (fun m => m.id == k) (f a) (t.map f)
        (by simp only [h a]; exact ha)]
      rw [@List.find?_cons_of_neg _ (fun m => m.id == k) a t ha]
      exact ih

theorem statusOf_setStatusIf (msgs : List Message) (mid k : Nat)
    (allowed : MessageStatus → Bool) (new : MessageStatus) :
    ((setStatusIf msgs mid allowed new).find? fun m => m.id == k).map
        (fun m => m.status)
      = (msgs.find? fun m => m.id == k).map
          (fun m => if m.id == mid && allowed m.status then new else m.status) := by
  unfold setStatusIf
  rw [find?_map_eqId k msgs _ (fun m => by split <;> rfl)]
  cases h : msgs.find? fun m => m.id == k
  · rfl
  · simp only [Option.map_some']
    congr 1
    split <;> rfl

theorem mark_as_delivered_messages (message_id user_id : Nat) (st : Store) :
    (mark_as_delivered [] message_id user_id st).1.messages
      = setStatusIf st.messages message_id
          (fun s => s == MessageStatus.sent) MessageStatus.delivered := by
  show setStatusIf (insertReceipt st message_id user_id ReceiptType.delivered).messages
      message_id (fun s => s == MessageStatus.sent) MessageStatus.delivered = _
  rw [insertReceipt_messages]

theorem mark_as_read_messages (message_id user_id : Nat) (st : Store) :
    (mark_as_read [] message_id user_id st).1.messages
      = setStatusIf st.messages message_id
          (fun s => s == MessageStatus.sent || s == MessageStatus.delivered)
          MessageStatus.read := by
  show setStatusIf (insertReceipt (insertReceipt st message_id user_id
      ReceiptType.delivered) message_id user_id ReceiptType.read).messages
      message_id (fun s => s == MessageStatus.sent || s == MessageStatus.delivered)
      MessageStatus.read = _
  rw [insertReceipt_messages, insertReceipt_messages]

theorem statusOf_markD (message_id user_id k : Nat) (st : Store) :
    statusOf (mark_as_delivered [] message_id user_id st).1 k
      = (st.messages.find? fun m => m.id == k).map
          (fun m => if m.id == message_id && (m.status == MessageStatus.sent)
            then MessageStatus.delivered else m.status) := by
  unfold statusOf
  rw [mark_as_delivered_messages]
  exact statusOf_setStatusIf st.messages message_id k _ _

theorem statusOf_markR (message_id user_id k : Nat) (st : Store) :
    statusOf (mark_as_read [] message_id user_id st).1 k
      = (st.messages.find? fun m => m.id == k).map
          (fun m => if m.id == message_id
              && (m.status == MessageStatus.sent || m.status == MessageStatus.delivered)
            then MessageStatus.read else m.status) := by
  unfold statusOf
  rw [mark_as_read_messages]
  exact statusOf_setStatusIf st.messages message_id k _ _

theorem statusRank_le_applyMark (st : Store) (op : MarkOp) (k : Nat) :
    statusRank (statusOf st k) ≤ statusRank (statusOf (applyMark st op) k) := by
  cases op with
  | deliver mid uid =>
    show statusRank (statusOf st k)
      ≤ statusRank (statusOf (mark_as_delivered [] mid uid st).1 k)
    rw [statusOf_markD]
    unfold statusOf
    cases h : st.messages.find? fun m => m.id == k
    · simp
    · rename_i m
      simp only [Option.map_some']
      by_cases hc : (m.id == mid && (m.status == MessageStatus.sent)) = true
      · rw [if_pos hc]
        have hs : m.status = MessageStatus.sent := by
          rw [Bool.and_eq_true, beq_iff_eq, beq_iff_eq] at hc
          exact hc.2
        rw [hs]
        decide
      · rw [if_neg hc]
  | markRead mid uid =>
    show statusRank (statusOf st k)
      ≤ statusRank (statusOf (mark_as_read [] mid uid st).1 k)
    rw [statusOf_markR]
    unfold statusOf
    cases h : st.messages.find? fun m => m.id == k
    · simp
    · rename_i m
      simp only [Option.map_some']
      by_cases hc : (m.id == mid
          && (m.status == MessageStatus.sent || m.status == MessageStatus.delivered)) = true
      · rw [if_pos hc]
        rw [Bool.and_eq_true, Bool.or_eq_true, beq_iff_eq, beq_iff_eq, beq_iff_eq] at hc
        rcases hc.2 with hs | hs <;> rw [hs] <;> decide
      · rw [if_neg hc]

theorem statusRank_le_applyMarks (ops : List MarkOp) :
    ∀ (st : Store) (k : Nat),
      statusRank (statusOf st k) ≤ statusRank (statusOf (applyMarks st ops) k) := by
  induction ops with
  | nil => intro st k; exact le_refl _
  | cons op ops ih =>
    intro st k
    exact le_trans (statusRank_le_applyMark st op k) (ih (applyMark st op) k)

/-! ### C3: status only advances forward -/

/-- Claim C3: mark_as_delivered moves a sent message to delivered and leaves
a read message read; mark_as_read moves a sent or delivered message to read;
and no sequence of marking calls ever lowers the rank of a message status in
the order sending, sent, delivered, read. -/
theorem status_monotonic :
    ∀ (st : Store) (message_id user_id : Nat),
      (statusOf st message_id = some MessageStatus.sent →
        statusOf (mark_as_delivered [] message_id user_id st).1 message_id
          = some MessageStatus.delivered) ∧
      (statusOf st message_id = some MessageStatus.read →
        statusOf (mark_as_delivered [] message_id user_id st).1 message_id
          = some MessageStatus.read) ∧
      (statusOf st message_id = some MessageStatus.sent ∨
          statusOf st message_id = some MessageStatus.delivered →
        statusOf (mark_as_read [] message_id user_id st).1 message_id
          = some MessageStatus.read) ∧
      (∀ ops : List MarkOp,
        statusRank (statusOf st message_id)
          ≤ statusRank (statusOf (applyMarks st ops) message_id)) := by
  intro st message_id user_id
  refine ⟨?_, ?_, ?_, fun ops => statusRank_le_applyMarks ops st message_id⟩
  · intro h
    rw [statusOf_markD]
    unfold statusOf at h
    cases hf : st.messages.find? fun m => m.id == message_id with
    | none => rw [hf] at h; exact absurd h (by simp)
    | some m =>
      rw [hf] at h
      simp only [Option.map_some', Option.some_inj] at h
      have hid := List.find?_some hf
      simp only [Option.map_some', Option.some_inj]
      rw [if_pos (by rw [h]; simp only [hid]; decide)]
  · intro h
    rw [statusOf_markD]
    unfold statusOf at h
    cases hf : st.messages.find? fun m => m.id == message_id with
    | none => rw [hf] at h; exact absurd h (by simp)
    | some m =>
      rw [hf] at h
      simp only [Option.map_some', Option.some_inj] at h
      simp only [Option.map_some', Option.some_inj]
      rw [if_neg (by rw [h]; simp)]
      exact h
  · intro h
    rw [statusOf_markR]
    unfold statusOf at h
    cases hf : st.messages.find? fun m => m.id == message_id with
    | none =>
      rw [hf] at h
      rcases h with h | h <;> exact absurd h (by simp)
    | some m =>
      rw [hf] at h
      have hid := List.find?_some hf
      simp only [Option.map_some', Option.some_inj] at h
      simp only [Option.map_some', Option.some_inj]
      rcases h with h | h <;>
        · rw [if_pos (by rw [h]; simp only [hid]; decide)]

/-- Claim C3 witness: in the fixture, message 5 (sent) goes to delivered on
a delivered marking, to read on a read marking, stays read under a later
delivered marking, and a concrete marking sequence never lowers its rank. -/
theorem status_monotonic_w :
    statusOf (mark_as_delivered [] 5 11 fixtureStore).1 5 = some MessageStatus.delivered ∧
    statusOf (mark_as_delivered [] 5 11 (mark_as_read [] 5 11 fixtureStore).1).1 5
        = some MessageStatus.read ∧
    statusOf (mark_as_read [] 5 11 fixtureStore).1 5 = some MessageStatus.read ∧
    statusRank (statusOf fixtureStore 5)
      ≤ statusRank (statusOf
          (applyMarks fixtureStore [MarkOp.deliver 5 11, MarkOp.markRead 5 11]) 5) :=
  ⟨(status_monotonic fixtureStore 5 11).1 (by decide),
   (status_monotonic (mark_as_read [] 5 11 fixtureStore).1 5 11).2.1 (by decide),
   (status_monotonic fixtureStore 5 11).2.2.1 (Or.inl (by decide)),
   (status_monotonic fixtureStore 5 11).2.2.2 [MarkOp.deliver 5 11, MarkOp.markRead 5 11]⟩

/-! ### Receipt idempotence helper lemmas -/

theorem insertReceipt_of_any (st : Store) (mid uid : Nat) (t : ReceiptType)
    (h : (st.receipts.any fun r =>
      r.message_id == mid && r.user_id == uid && r.receipt_type == t) = true) :
    insertReceipt st mid uid t = st := by
  unfold insertReceipt
  rw [if_pos h]

theorem any_insertReceipt_self (st : Store) (mid uid : Nat) (t : ReceiptType) :
    ((insertReceipt st mid uid t).receipts.any fun r =>
      r.message_id == mid && r.user_id == uid && r.receipt_type == t) = true := by
  unfold insertReceipt
  split
  · next h => exact h
  · simp [List.any_append]

theorem any_insertReceipt_mono (st : Store) (mid uid : Nat) (t : ReceiptType)
    (p : Receipt → Bool) (h : (st.receipts.any p) = true) :
    ((insertReceipt st mid uid t).receipts.any p) = true := by
  unfold insertReceipt
  split
  · exact h
  · simp [List.any_append, h]

theorem setStatusIf_idem (msgs : List Message) (mid : Nat)
    (allowed : MessageStatus → Bool) (new : MessageStatus) (h : allowed new = false) :
    setStatusIf (setStatusIf msgs mid allowed new) mid allowed new
      = setStatusIf msgs mid allowed new := by
  induction msgs with
  | nil => rfl
  | cons m t ih =>
    unfold setStatusIf at ih ⊢
    simp only [List.map_cons]
    rw [ih]
    congr 1
    by_cases hc : (m.id == mid && allowed m.status) = true
    · simp only [if_pos hc]
      rw [if_neg (by simp [h])]
    · simp only [if_neg hc]

theorem mark_as_delivered_state_idem (message_id user_id : Nat) (st : Store) :
    (mark_as_delivered [] message_id user_id
        (mark_as_delivered [] message_id user_id st).1).1
      = (mark_as_delivered [] message_id user_id st).1 := by
  have hA : insertReceipt (mark_as_delivered [] message_id user_id st).1
      message_id user_id ReceiptType.delivered
      = (mark_as_delivered [] message_id user_id st).1 :=
    insertReceipt_of_any _ _ _ _
      (any_insertReceipt_self st message_id user_id ReceiptType.delivered)
  show ({ insertReceipt (mark_as_delivered [] message_id user_id st).1
        message_id user_id ReceiptType.delivered with
      messages := setStatusIf
        (insertReceipt (mark_as_delivered [] message_id user_id st).1
          message_id user_id ReceiptType.delivered).messages message_id
        (fun s => s == MessageStatus.sent) MessageStatus.delivered } : Store)
    = (mark_as_delivered [] message_id user_id st).1
  rw [hA]
  have hm : setStatusIf (mark_as_delivered [] message_id user_id st).1.messages
      message_id (fun s => s == MessageStatus.sent) MessageStatus.delivered
      = (mark_as_delivered [] message_id user_id st).1.messages := by
    rw [mark_as_delivered_messages]
    exact setStatusIf_idem st.messages message_id _ _ rfl
  rw [hm]

theorem mark_as_read_state_idem (message_id user_id : Nat) (st : Store) :
    (mark_as_read [] message_id user_id
        (mark_as_read [] message_id user_id st).1).1
      = (mark_as_read [] message_id user_id st).1 := by
  have hA : insertReceipt (mark_as_read [] message_id user_id st).1
      message_id user_id ReceiptType.delivered
      = (mark_as_read [] message_id user_id st).1 :=
    insertReceipt_of_any _ _ _ _
      (any_insertReceipt_mono (insertReceipt st message_id user_id ReceiptType.delivered)
        message_id user_id ReceiptType.read _
        (any_insertReceipt_self st message_id user_id ReceiptType.delivered))
  have hB : insertReceipt (mark_as_read [] message_id user_id st).1
      message_id user_id ReceiptType.read
      = (mark_as_read [] message_id user_id st).1 :=
    insertReceipt_of_any _ _ _ _
      (any_insertReceipt_self
        (insertReceipt st message_id user_id ReceiptType.delivered)
        message_id user_id ReceiptType.read)
  show ({ insertReceipt (insertReceipt (mark_as_read [] message_id user_id st).1
        message_id user_id ReceiptType.delivered) message_id user_id ReceiptType.read with
      messages := setStatusIf
        (insertReceipt (insertReceipt (mark_as_read [] message_id user_id st).1
          message_id user_id ReceiptType.delivered)
            message_id user_id ReceiptType.read).messages message_id
        (fun s => s == MessageStatus.sent || s == MessageStatus.delivered)
        MessageStatus.read } : Store)
    = (mark_as_read [] message_id user_id st).1
  rw [hA, hB]
  have hm : setStatusIf (mark_as_read [] message_id user_id st).1.messages
      message_id (fun s => s == MessageStatus.sent || s == MessageStatus.delivered)
      MessageStatus.read
      = (mark_as_read [] message_id user_id st).1.messages := by
    rw [mark_as_read_messages]
    exact setStatusIf_idem st.messages message_id _ _ rfl
  rw [hm]

theorem countReceipt_insertReceipt_of_zero (st : Store) (mid uid : Nat)
    (t : ReceiptType) (h : countReceipt st mid uid t = 0) :
    countReceipt (insertReceipt st mid uid t) mid uid t = 1 := by
  have hany : (st.receipts.any fun r =>
      r.message_id == mid && r.user_id == uid && r.receipt_type == t) = false := by
    rw [← Bool.not_eq_true, List.any_eq_true]
    rintro ⟨r, hr, hp⟩
    exact (List.countP_eq_zero.mp h r hr) hp
  unfold insertReceipt
  rw [if_neg (by rw [hany]; exact Bool.false_ne_true)]
  unfold countReceipt at h ⊢
  rw [List.countP_append, h]
  simp

theorem countReceipt_insertReceipt_other (st : Store) (mid uid mid2 uid2 : Nat)
    (t t2 : ReceiptType) (h : t2 ≠ t) :
    countReceipt (insertReceipt st mid2 uid2 t2) mid uid t
      = countReceipt st mid uid t := by
  unfold insertReceipt
  split
  · rfl
  · unfold countReceipt
    rw [List.countP_append]
    have hne : (t2 == t) = false := beq_eq_false_iff_ne.mpr h
    simp [List.countP_cons, hne]

/-! ### C5: recording a receipt twice is an idempotent no-op -/

/-- Claim C5: marking the same (message, user, kind) twice leaves the store
exactly as after marking once; starting from no receipt for the triple,
exactly one receipt row exists after the double marking; and the
double-marked store has the same unread counts as the once-marked store. -/
theorem receipt_recording_idempotent :
    ∀ (st : Store) (message_id user_id : Nat),
      ((mark_as_delivered [] message_id user_id
          (mark_as_delivered [] message_id user_id st).1).1
        = (mark_as_delivered [] message_id user_id st).1) ∧
      ((mark_as_read [] message_id user_id
          (mark_as_read [] message_id user_id st).1).1
        = (mark_as_read [] message_id user_id st).1) ∧
      (countReceipt st message_id user_id ReceiptType.delivered = 0 →
        countReceipt (mark_as_delivered [] message_id user_id
            (mark_as_delivered [] message_id user_id st).1).1
          message_id user_id ReceiptType.delivered = 1) ∧
      (countReceipt st message_id user_id ReceiptType.read = 0 →
        countReceipt (mark_as_read [] message_id user_id
            (mark_as_read [] message_id user_id st).1).1
          message_id user_id ReceiptType.read = 1) ∧
      (∀ (cid w : Nat),
        unreadCount (mark_as_delivered [] message_id user_id
            (mark_as_delivered [] message_id user_id st).1).1 cid w
          = unreadCount (mark_as_delivered [] message_id user_id st).1 cid w ∧
        unreadCount (mark_as_read [] message_id user_id
            (mark_as_read [] message_id user_id st).1).1 cid w
          = unreadCount (mark_as_read [] message_id user_id st).1 cid w) := by
  intro st message_id user_id
  have hd := mark_as_delivered_state_idem message_id user_id st
  have hr := mark_as_read_state_idem message_id user_id st
  refine ⟨hd, hr, ?_, ?_, fun cid w => ⟨by rw [hd], by rw [hr]⟩⟩
  · intro h0
    rw [hd]
    exact countReceipt_insertReceipt_of_zero st message_id user_id
      ReceiptType.delivered h0
  · intro h0
    rw [hr]
    have h1 : countReceipt (insertReceipt st message_id user_id ReceiptType.delivered)
        message_id user_id ReceiptType.read = 0 := by
      rw [countReceipt_insertReceipt_other st message_id user_id message_id user_id
        ReceiptType.read ReceiptType.delivered (by decide)]
      exact h0
    exact countReceipt_insertReceipt_of_zero
      (insertReceipt st message_id user_id ReceiptType.delivered)
      message_id user_id ReceiptType.read h1

/-- Claim C5 witness: user 11 double-marks message 5 in the fixture. -/
theorem receipt_recording_idempotent_w :
    countReceipt fixtureStore 5 11 ReceiptType.delivered = 0 ∧
    countReceipt (mark_as_delivered [] 5 11
        (mark_as_delivered [] 5 11 fixtureStore).1).1 5 11 ReceiptType.delivered = 1 ∧
    countReceipt (mark_as_read [] 5 11
        (mark_as_read [] 5 11 fixtureStore).1).1 5 11 ReceiptType.read = 1 :=
  ⟨by decide,
   (receipt_recording_idempotent fixtureStore 5 11).2.2.1 (by decide),
   (receipt_recording_idempotent fixtureStore 5 11).2.2.2.1 (by decide)⟩

/-! ### C6: membership rows created by the two conversation constructors -/

theorem countP_memberRows (cid now w : Nat) (ms : List Nat) :
    ∀ nid, ((memberRows nid cid now ms).countP fun p =>
        p.conversation_id == cid && p.user_id == w && p.left_at == none)
      = ms.count w := by
  induction ms with
  | nil => intro nid; rfl
  | cons m t ih =>
    intro nid
    simp only [memberRows]
    rw [List.countP_cons, ih (nid + 1), List.count_cons]
    congr 1
    simp

theorem countP_participants_zero (st : Store) (w : Nat)
    (hfresh : ∀ p ∈ st.participants, p.conversation_id ≠ st.nextId) :
    (st.participants.countP fun p =>
      p.conversation_id == st.nextId && p.user_id == w && p.left_at == none) = 0 := by
  rw [List.countP_eq_zero]
  intro p hp hpred
  simp only [Bool.and_eq_true, beq_iff_eq] at hpred
  exact hfresh p hp hpred.1.1

/-- Claim C6 counterexample: in the empty store, creating a group with
member list [2, 2] (a duplicate) produces two active membership rows for
user 2 in the new conversation (id 100) — not one row per distinct member. -/
theorem group_duplicate_members_cex :
    countMembership (create_group_conversation 1 ("g") [2, 2] emptyStore).1 100 2 = 2 ∧
      (2 : Nat) ≠ 1 := by
  decide

/-- Claim C6 (amended): create_group inserts the caller once as owner and
one member row per occurrence of each id different from the caller in
member_ids — duplicates produce duplicate membership rows, so uniqueness of
active membership holds only when member_ids is duplicate-free;
create_direct inserts one row per element of the pair [user, other], so a
self-pair yields two rows for the same user. -/
theorem membership_rows_characterized :
    ∀ (st : Store) (w : Nat),
      (∀ (user_id : Nat) (name : String) (member_ids : List Nat),
        (∀ p ∈ st.participants, p.conversation_id ≠ st.nextId) →
        countMembership (create_group_conversation user_id name member_ids st).1
            st.nextId w
          = if w = user_id then 1
            else (member_ids.filter fun m => m != user_id).count w) ∧
      (∀ (u v : Nat),
        (∀ p ∈ st.participants, p.conversation_id ≠ st.nextId) →
        findDirect st u v = none →
        countMembership (create_direct_conversation u v st).1 st.nextId w
          = [u, v].count w) := by
  intro st w
  constructor
  · intro user_id name member_ids hfresh
    simp only [create_group_conversation, countMembership]
    rw [List.countP_append, List.countP_cons,
      countP_memberRows st.nextId st.now w _ (st.nextId + 2),
      countP_participants_zero st w hfresh]
    by_cases hw : w = user_id
    · subst hw
      have hcount0 : ((member_ids.filter fun m => m != w).count w) = 0 := by
        rw [List.count_eq_zero]
        intro hmem
        rw [List.mem_filter] at hmem
        simp at hmem
      simp [hcount0]
    · have hne : (user_id == w) = false :=
        beq_eq_false_iff_ne.mpr fun he => hw he.symm
      simp [hne, hw]
  · intro u v hfresh hnone
    simp only [create_direct_conversation, hnone, countMembership]
    rw [List.countP_append, countP_participants_zero st w hfresh]
    rw [List.countP_cons, List.countP_cons, List.countP_nil]
    rw [List.count_cons, List.count_cons, List.count_nil]
    by_cases h1 : (u == w) = true <;> by_cases h2 : (v == w) = true <;>
      simp [h1, h2]

/-- Claim C6 amended witness: duplicate member 2 yields two rows in the
group; the direct pair (1, 2) yields one row for user 2. -/
theorem membership_rows_characterized_w :
    countMembership (create_group_conversation 1 ("g") [2, 2] emptyStore).1
        emptyStore.nextId 2
      = (if (2 : Nat) = 1 then 1 else (([2, 2].filter fun m => m != 1).count 2)) ∧
    countMembership (create_direct_conversation 1 2 emptyStore).1
        emptyStore.nextId 2 = [1, 2].count 2 :=
  ⟨(membership_rows_characterized emptyStore 2).1 1 ("g") [2, 2]
      (fun p hp => absurd hp (List.not_mem_nil p)),
   (membership_rows_characterized emptyStore 2).2 1 2
      (fun p hp => absurd hp (List.not_mem_nil p)) rfl⟩

/-! ### C2: relay publish failures on the send path -/

/-- Each conjunct of the fan-out loop behavior: the store's message table is
untouched by publishing; the loop either succeeds or fails with a Redis
error; and it succeeds exactly when the oracle grants every publish of the
target list. -/
theorem publishAll_spec (ts : List Nat) :
    ∀ (o : Oracle) (mid : Nat) (st : Store),
      (publishAll o ts mid st).1.messages = st.messages ∧
      ((publishAll o ts mid st).2 = Except.ok () ∨
        (publishAll o ts mid st).2 = Except.error AppError.Redis) ∧
      ((publishAll o ts mid st).2 = Except.ok ()
        ↔ ((o.take ts.length).all fun b => !b) = true) := by
  induction ts with
  | nil =>
    intro o mid st
    exact ⟨rfl, Or.inl rfl, by simp [publishAll]⟩
  | cons t ts ih =>
    intro o mid st
    have htake : ((o.take (ts.length + 1)).all fun b => !b)
        = (!(o.headD false) && ((o.drop 1).take ts.length).all fun b => !b) := by
      cases o <;> simp
    by_cases h : o.headD false = true
    · have hred : publishAll o (t :: ts) mid st = (st, Except.error AppError.Redis) := by
        show (if o.headD false then (st, Except.error AppError.Redis)
          else publishAll (o.drop 1) ts mid
            { st with published := st.published ++ [(t, mid)] }) = _
        rw [if_pos h]
      rw [hred]
      refine ⟨rfl, Or.inr rfl, ?_⟩
      constructor
      · intro hok; exact absurd hok (by simp)
      · intro hall
        rw [List.length_cons, htake, h] at hall
        simp at hall
    · have h' : o.headD false = false := by
        revert h; cases o.headD false <;> simp
      have hred : publishAll o (t :: ts) mid st
          = publishAll (o.drop 1) ts mid
              { st with published := st.published ++ [(t, mid)] } := by
        show (if o.headD false then (st, Except.error AppError.Redis)
          else publishAll (o.drop 1) ts mid
            { st with published := st.published ++ [(t, mid)] }) = _
        rw [if_neg h]
      rw [hred, List.length_cons, htake, h']
      obtain ⟨ihm, ihd, ihok⟩ :=
        ih (o.drop 1) mid { st with published := st.published ++ [(t, mid)] }
      refine ⟨ihm, ihd, ?_⟩
      rw [Bool.not_false, Bool.true_and]
      exact ihok

/-- Claim C2 counterexample: in the fixture, user 10's send persists the
message (the table grows by one row) but the failing relay publish to
participant 11 makes send_message return the Redis error — not success as
the claim states. -/
theorem send_publish_failure_surfaced_cex :
    (send_message [true] 1 10 MessageType.text [] none none fixtureStore).2
        = Except.error AppError.Redis ∧
    (send_message [true] 1 10 MessageType.text [] none none fixtureStore).1.messages.length
        = fixtureStore.messages.length + 1 := by
  decide

/-- Claim C2 (amended): for a send by an active participant the message is
always persisted, but the result is success exactly when every relay
publish of the fan-out succeeds; a failing publish is surfaced to the
caller as a Redis error even though the message is already stored. -/
theorem send_publish_failure_surfaced :
    ∀ (o : Oracle) (st : Store) (conversation_id sender_id : Nat)
      (message_type : MessageType) (content : List Nat)
      (sticker_id reply_to_id : Option Nat),
      isActiveParticipant st conversation_id sender_id = true →
      ((send_message o conversation_id sender_id message_type content
          sticker_id reply_to_id st).1.messages
        = st.messages ++ [newMessage st conversation_id sender_id message_type
            content sticker_id reply_to_id]) ∧
      ((send_message o conversation_id sender_id message_type content
          sticker_id reply_to_id st).2
          = Except.ok (newMessage st conversation_id sender_id message_type
              content sticker_id reply_to_id) ∨
        (send_message o conversation_id sender_id message_type content
          sticker_id reply_to_id st).2 = Except.error AppError.Redis) ∧
      ((send_message o conversation_id sender_id message_type content
          sticker_id reply_to_id st).2
          = Except.ok (newMessage st conversation_id sender_id message_type
              content sticker_id reply_to_id)
        ↔ ((o.take (notifyTargets st conversation_id sender_id).length).all
            fun b => !b) = true) := by
  intro o st conversation_id sender_id message_type content sticker_id reply_to_id h
  unfold send_message
  rw [if_neg (by rw [h]; decide)]
  have hnp : notify_participants o conversation_id sender_id
      (newMessage st conversation_id sender_id message_type content sticker_id reply_to_id)
      (touchConversation
        { st with
          messages := st.messages ++ [newMessage st conversation_id sender_id
            message_type content sticker_id reply_to_id]
          nextId := st.nextId + 1 } conversation_id)
      = publishAll o (notifyTargets st conversation_id sender_id)
          (newMessage st conversation_id sender_id message_type content
            sticker_id reply_to_id).id
          (touchConversation
            { st with
              messages := st.messages ++ [newMessage st conversation_id sender_id
                message_type content sticker_id reply_to_id]
              nextId := st.nextId + 1 } conversation_id) := rfl
  rw [hnp]
  obtain ⟨hm, hd, hok⟩ := publishAll_spec (notifyTargets st conversation_id sender_id) o
    (newMessage st conversation_id sender_id message_type content sticker_id reply_to_id).id
    (touchConversation
      { st with
        messages := st.messages ++ [newMessage st conversation_id sender_id
          message_type content sticker_id reply_to_id]
        nextId := st.nextId + 1 } conversation_id)
  rcases hpa : publishAll o (notifyTargets st conversation_id sender_id)
      (newMessage st conversation_id sender_id message_type content sticker_id reply_to_id).id
      (touchConversation
        { st with
          messages := st.messages ++ [newMessage st conversation_id sender_id
            message_type content sticker_id reply_to_id]
          nextId := st.nextId + 1 } conversation_id) with ⟨st3, r⟩
  rw [hpa] at hm hd hok
  cases r with
  | ok u =>
    cases u
    refine ⟨hm, Or.inl rfl, ?_⟩
    exact iff_of_true rfl (hok.mp rfl)
  | error e =>
    have he : e = AppError.Redis := by
      rcases hd with hd | hd
      · exact absurd hd (by simp)
      · simpa using hd
    subst he
    refine ⟨hm, Or.inr rfl, ?_⟩
    constructor
    · intro hcontra; exact absurd hcontra (by simp)
    · intro hall
      exact absurd (hok.mpr hall) (by simp)

/-- Claim C2 amended witness: with an all-success oracle the fixture send
persists and returns success, matching the success criterion. -/
theorem send_publish_failure_surfaced_w :
    ((send_message [] 1 10 MessageType.text [] none none fixtureStore).1.messages
      = fixtureStore.messages ++ [newMessage fixtureStore 1 10 MessageType.text [] none none]) ∧
    ((send_message [] 1 10 MessageType.text [] none none fixtureStore).2
        = Except.ok (newMessage fixtureStore 1 10 MessageType.text [] none none) ∨
      (send_message [] 1 10 MessageType.text [] none none fixtureStore).2
        = Except.error AppError.Redis) ∧
    ((send_message [] 1 10 MessageType.text [] none none fixtureStore).2
        = Except.ok (newMessage fixtureStore 1 10 MessageType.text [] none none)
      ↔ ((([] : Oracle).take (notifyTargets fixtureStore 1 10).length).all
          fun b => !b) = true) :=
  send_publish_failure_surfaced [] fixtureStore 1 10 MessageType.text [] none none (by decide)

/-! ### C4: create_direct_conversation returns the same identity twice -/

/-- The conversation identity carried by a successful detail result. -/
def convIdOf : Except AppError ConversationWithDetails → Option Nat
  | Except.ok d => some d.conversation.id
  | Except.error _ => none

/-- The conversation row inserted by the create branch of
create_direct_conversation. -/
def directConvRow (st : Store) (u : Nat) : Conversation :=
  { id := st.nextId, conversation_type := ConversationType.direct, name := none
    avatar_url := none, created_by := u, last_message_at := none
    created_at := st.now, updated_at := st.now }

/-- The participant rows inserted by the create branch. -/
def directPartRow (st : Store) (idx u : Nat) : Participant :=
  { id := st.nextId + idx, conversation_id := st.nextId, user_id := u
    role := ParticipantRole.member, joined_at := st.now, left_at := none
    muted_until := none }

/-- The store after the create branch committed. -/
def directCreatedStore (st : Store) (u v : Nat) : Store :=
  { st with
    conversations := st.conversations ++ [directConvRow st u]
    participants := st.participants ++ [directPartRow st 1 u, directPartRow st 2 v]
    nextId := st.nextId + 3 }

theorem create_direct_eq (st : Store) (u v : Nat)
    (hnone : findDirect st u v = none) :
    create_direct_conversation u v st
      = (directCreatedStore st u v,
         get_conversation st.nextId u (directCreatedStore st u v)) := by
  simp only [create_direct_conversation, hnone]
  rfl

theorem isActive_directCreated_fst (st : Store) (u v : Nat) :
    isActiveParticipant (directCreatedStore st u v) st.nextId u = true := by
  simp [isActiveParticipant, directCreatedStore, directPartRow, List.any_append]

theorem isActive_directCreated_snd (st : Store) (u v : Nat) :
    isActiveParticipant (directCreatedStore st u v) st.nextId v = true := by
  simp [isActiveParticipant, directCreatedStore, directPartRow, List.any_append]

theorem find?_directCreated (st : Store) (u v : Nat)
    (hfresh : ∀ c ∈ st.conversations, c.id < st.nextId) :
    ((directCreatedStore st u v).conversations.find? fun c => c.id == st.nextId)
      = some (directConvRow st u) := by
  show ((st.conversations ++ [directConvRow st u]).find? fun c => c.id == st.nextId) = _
  rw [List.find?_append]
  have hold : (st.conversations.find? fun c => c.id == st.nextId) = none := by
    rw [List.find?_eq_none]
    intro c hc hbeq
    rw [beq_iff_eq] at hbeq
    exact absurd hbeq (Nat.ne_of_lt (hfresh c hc))
  rw [hold]
  simp [directConvRow]

theorem convIdOf_get_conversation (st' : Store) (cid w : Nat) (row : Conversation)
    (hpart : isActiveParticipant st' cid w = true)
    (hfind : (st'.conversations.find? fun c => c.id == cid) = some row) :
    convIdOf (get_conversation cid w st') = some row.id := by
  unfold get_conversation
  rw [if_neg (by rw [hpart]; decide)]
  rw [hfind]
  rfl

theorem findDirect_directCreated (st : Store) (u v a b : Nat)
    (hfresh : ∀ c ∈ st.conversations, c.id < st.nextId)
    (hnone : findDirect st u v = none)
    (hab : (a = u ∧ b = v) ∨ (a = v ∧ b = u)) :
    findDirect (directCreatedStore st u v) a b = some (directConvRow st u) := by
  have hnoneAll := List.find?_eq_none.mp hnone
  unfold findDirect at hnoneAll ⊢
  show ((st.conversations ++ [directConvRow st u]).find? _) = _
  rw [List.find?_append]
  have hold : (st.conversations.find? fun c =>
      c.conversation_type == ConversationType.direct
        && ((directCreatedStore st u v).participants.any fun p =>
              p.conversation_id == c.id && p.user_id == a && p.left_at == none)
        && ((directCreatedStore st u v).participants.any fun p =>
              p.conversation_id == c.id && p.user_id == b && p.left_at == none)) = none := by
    rw [List.find?_eq_none]
    intro c hc hpred
    have hidne : (st.nextId == c.id) = false :=
      beq_eq_false_iff_ne.mpr (Ne.symm (Nat.ne_of_lt (hfresh c hc)))
    rw [Bool.and_eq_true, Bool.and_eq_true] at hpred
    obtain ⟨⟨hdir, hPa⟩, hPb⟩ := hpred
    have reduceAny : ∀ x : Nat,
        ((directCreatedStore st u v).participants.any fun p =>
          p.conversation_id == c.id && p.user_id == x && p.left_at == none) = true →
        (st.participants.any fun p =>
          p.conversation_id == c.id && p.user_id == x && p.left_at == none) = true := by
      intro x hx
      have : ((st.participants ++ [directPartRow st 1 u, directPartRow st 2 v]).any fun p =>
          p.conversation_id == c.id && p.user_id == x && p.left_at == none) = true := hx
      rw [List.any_append] at this
      rcases Bool.or_eq_true_iff.mp this with h | h
      · exact h
      · simp [directPartRow, hidne] at h
    have hPa' := reduceAny a hPa
    have hPb' := reduceAny b hPb
    rcases hab with ⟨ha, hb⟩ | ⟨ha, hb⟩
    · subst ha; subst hb
      exact (hnoneAll c hc) (by rw [Bool.and_eq_true, Bool.and_eq_true]
                                exact ⟨⟨hdir, hPa'⟩, hPb'⟩)
    · subst ha; subst hb
      exact (hnoneAll c hc) (by rw [Bool.and_eq_true, Bool.and_eq_true]
                                exact ⟨⟨hdir, hPb'⟩, hPa'⟩)
  rw [hold]
  have hconv : ((fun c =>
      c.conversation_type == ConversationType.direct
        && ((directCreatedStore st u v).participants.any fun p =>
              p.conversation_id == c.id && p.user_id == a && p.left_at == none)
        && ((directCreatedStore st u v).participants.any fun p =>
              p.conversation_id == c.id && p.user_id == b && p.left_at == none))
      (directConvRow st u)) = true := by
    rcases hab with ⟨ha, hb⟩ | ⟨ha, hb⟩ <;> subst ha <;> subst hb <;>
      simp [directConvRow, directCreatedStore, directPartRow, List.any_append]
  rw [@List.find?_cons_of_pos _ _ (directConvRow st u) [] hconv]
  rfl

/-- Claim C4: starting from a store with no active direct conversation
between u and v (and fresh conversation ids), the first create-direct call
creates conversation st.nextId, and a second call — in either argument
order — finds that conversation, returns the same identity, and leaves the
store untouched. -/
theorem create_direct_same_identity :
    ∀ (st : Store) (u v : Nat),
      (∀ c ∈ st.conversations, c.id < st.nextId) →
      findDirect st u v = none →
      convIdOf (create_direct_conversation u v st).2 = some st.nextId ∧
      convIdOf (create_direct_conversation v u
          (create_direct_conversation u v st).1).2 = some st.nextId ∧
      convIdOf (create_direct_conversation u v
          (create_direct_conversation u v st).1).2 = some st.nextId ∧
      (create_direct_conversation v u (create_direct_conversation u v st).1).1
        = (create_direct_conversation u v st).1 ∧
      (create_direct_conversation u v (create_direct_conversation u v st).1).1
        = (create_direct_conversation u v st).1 := by
  intro st u v hfresh hnone
  have e1 := create_direct_eq st u v hnone
  have hfind := find?_directCreated st u v hfresh
  have hid1 : convIdOf (get_conversation st.nextId u (directCreatedStore st u v))
      = some st.nextId :=
    convIdOf_get_conversation _ _ _ _ (isActive_directCreated_fst st u v) hfind
  have hid2 : convIdOf (get_conversation st.nextId v (directCreatedStore st u v))
      = some st.nextId :=
    convIdOf_get_conversation _ _ _ _ (isActive_directCreated_snd st u v) hfind
  have hfd2 : findDirect (directCreatedStore st u v) v u = some (directConvRow st u) :=
    findDirect_directCreated st u v v u hfresh hnone (Or.inr ⟨rfl, rfl⟩)
  have hfd3 : findDirect (directCreatedStore st u v) u v = some (directConvRow st u) :=
    findDirect_directCreated st u v u v hfresh hnone (Or.inl ⟨rfl, rfl⟩)
  have e2 : create_direct_conversation v u (directCreatedStore st u v)
      = (directCreatedStore st u v,
         get_conversation st.nextId v (directCreatedStore st u v)) := by
    simp only [create_direct_conversation, hfd2]
    rfl
  have e3 : create_direct_conversation u v (directCreatedStore st u v)
      = (directCreatedStore st u v,
         get_conversation st.nextId u (directCreatedStore st u v)) := by
    simp only [create_direct_conversation, hfd3]
    rfl
  rw [e1]
  refine ⟨hid1, ?_, ?_, ?_, ?_⟩
  · rw [e2]; exact hid2
  · rw [e3]; exact hid1
  · rw [e2]
  · rw [e3]

/-- Claim C4 witness: users 1 and 2 in the empty store. -/
theorem create_direct_same_identity_w :
    convIdOf (create_direct_conversation 1 2 emptyStore).2 = some emptyStore.nextId ∧
    convIdOf (create_direct_conversation 2 1
        (create_direct_conversation 1 2 emptyStore).1).2 = some emptyStore.nextId ∧
    convIdOf (create_direct_conversation 1 2
        (create_direct_conversation 1 2 emptyStore).1).2 = some emptyStore.nextId ∧
    (create_direct_conversation 2 1 (create_direct_conversation 1 2 emptyStore).1).1
      = (create_direct_conversation 1 2 emptyStore).1 ∧
    (create_direct_conversation 1 2 (create_direct_conversation 1 2 emptyStore).1).1
      = (create_direct_conversation 1 2 emptyStore).1 :=
  create_direct_same_identity emptyStore 1 2
    (fun c hc => absurd hc (List.not_mem_nil c)) rfl

/-! ### C8: pagination with a before id -/

instance : IsTotal Message msgNewer :=
  ⟨fun a b => le_total b.created_at a.created_at⟩

instance : IsTrans Message msgNewer :=
  ⟨fun _ _ _ hab hbc => le_trans hbc hab⟩

/-- The row list of a successful message-list result. -/
def messagesOf : Except AppError (List Message) → List Message
  | Except.ok l => l
  | Except.error _ => []

/-- The fixture extended with more messages: ids 5 (at time 4), 6 (at 6),
7 (at 5, soft-deleted) and 8 (at 8), all in conversation 1. -/
def pagedStore : Store :=
  { fixtureStore with messages :=
      [⟨5, 1, 10, MessageType.text, [], none, none, MessageStatus.sent, none, none, 4⟩,
       ⟨6, 1, 11, MessageType.text, [], none, none, MessageStatus.sent, none, none, 6⟩,
       ⟨7, 1, 10, MessageType.text, [], none, none, MessageStatus.sent, none, some 1, 5⟩,
       ⟨8, 1, 10, MessageType.text, [], none, none, MessageStatus.sent, none, none, 8⟩] }

/-- Claim C8: for an authorized caller and an existing before-message mb,
get_messages returns only non-deleted rows of the conversation strictly
older than mb, newest first; and with offset zero and a limit at least the
number of such rows, every such row is returned. -/
theorem get_messages_before_pagination :
    ∀ (st : Store) (conversation_id user_id limit offset before_id : Nat)
      (mb : Message),
      isActiveParticipant st conversation_id user_id = true →
      (st.messages.find? fun m => m.id == before_id) = some mb →
      get_messages conversation_id user_id limit offset (some before_id) st
          = Except.ok (messagesOf (get_messages conversation_id user_id limit offset
              (some before_id) st)) ∧
      (∀ m ∈ messagesOf (get_messages conversation_id user_id limit offset
          (some before_id) st),
        m.conversation_id = conversation_id ∧ m.deleted_at = none ∧
          m.created_at < mb.created_at) ∧
      List.Sorted msgNewer (messagesOf (get_messages conversation_id user_id limit offset
        (some before_id) st)) ∧
      (offset = 0 →
        ((st.messages.filter fun m =>
            m.conversation_id == conversation_id && m.deleted_at == none).filter
          fun m => decide (m.created_at < mb.created_at)).length ≤ limit →
        ∀ m ∈ st.messages, m.conversation_id = conversation_id → m.deleted_at = none →
          m.created_at < mb.created_at →
          m ∈ messagesOf (get_messages conversation_id user_id limit offset
            (some before_id) st)) := by
  intro st conversation_id user_id limit offset before_id mb hpart hfind
  have hred : get_messages conversation_id user_id limit offset (some before_id) st
      = Except.ok (((sortNewestFirst
          ((st.messages.filter fun m =>
              m.conversation_id == conversation_id && m.deleted_at == none).filter
            fun m => decide (m.created_at < mb.created_at))).drop offset).take limit) := by
    simp only [get_messages]
    rw [if_neg (by rw [hpart]; decide), hfind]
  rw [hred]
  have hperm := List.perm_insertionSort msgNewer
    ((st.messages.filter fun m =>
        m.conversation_id == conversation_id && m.deleted_at == none).filter
      fun m => decide (m.created_at < mb.created_at))
  have hsorted := List.sorted_insertionSort msgNewer
    ((st.messages.filter fun m =>
        m.conversation_id == conversation_id && m.deleted_at == none).filter
      fun m => decide (m.created_at < mb.created_at))
  have hsub : (((sortNewestFirst
      ((st.messages.filter fun m =>
          m.conversation_id == conversation_id && m.deleted_at == none).filter
        fun m => decide (m.created_at < mb.created_at))).drop offset).take limit).Sublist
      (sortNewestFirst
        ((st.messages.filter fun m =>
            m.conversation_id == conversation_id && m.deleted_at == none).filter
          fun m => decide (m.created_at < mb.created_at))) :=
    (List.take_sublist _ _).trans (List.drop_sublist _ _)
  refine ⟨rfl, ?_, ?_, ?_⟩
  · intro m hm
    have hmS := hsub.subset hm
    have hmc : m ∈ ((st.messages.filter fun m =>
        m.conversation_id == conversation_id && m.deleted_at == none).filter
      fun m => decide (m.created_at < mb.created_at)) := hperm.mem_iff.mp hmS
    rw [List.mem_filter] at hmc
    obtain ⟨hm1, hm2⟩ := hmc
    rw [List.mem_filter] at hm1
    obtain ⟨_, hm1b⟩ := hm1
    rw [Bool.and_eq_true, beq_iff_eq, beq_iff_eq] at hm1b
    rw [decide_eq_true_iff] at hm2
    exact ⟨hm1b.1, hm1b.2, hm2⟩
  · exact List.Pairwise.sublist hsub hsorted
  · intro h0 hlim m hmem hc hd hlt
    subst h0
    rw [List.drop_zero]
    have hlen : (sortNewestFirst
        ((st.messages.filter fun m =>
            m.conversation_id == conversation_id && m.deleted_at == none).filter
          fun m => decide (m.created_at < mb.created_at))).length ≤ limit := by
      unfold sortNewestFirst
      rw [hperm.length_eq]
      exact hlim
    rw [List.take_of_length_le hlen]
    apply hperm.mem_iff.mpr
    rw [List.mem_filter]
    refine ⟨?_, by rw [decide_eq_true_iff]; exact hlt⟩
    rw [List.mem_filter]
    exact ⟨hmem, by rw [Bool.and_eq_true, beq_iff_eq, beq_iff_eq]; exact ⟨hc, hd⟩⟩

/-- Claim C8 witness: paging conversation 1 before message 8 (timestamp 8)
for user 10 returns only the older non-deleted rows, newest first, and
misses none with offset 0 and limit 50. -/
theorem get_messages_before_pagination_w :
    get_messages 1 10 50 0 (some 8) pagedStore
        = Except.ok (messagesOf (get_messages 1 10 50 0 (some 8) pagedStore)) ∧
    (∀ m ∈ messagesOf (get_messages 1 10 50 0 (some 8) pagedStore),
      m.conversation_id = 1 ∧ m.deleted_at = none ∧
        m.created_at < (⟨8, 1, 10, MessageType.text, [], none, none, MessageStatus.sent,
          none, none, 8⟩ : Message).created_at) ∧
    List.Sorted msgNewer (messagesOf (get_messages 1 10 50 0 (some 8) pagedStore)) ∧
    (0 = 0 →
      ((pagedStore.messages.filter fun m =>
          m.conversation_id == 1 && m.deleted_at == none).filter
        fun m => decide (m.created_at < (⟨8, 1, 10, MessageType.text, [], none, none,
          MessageStatus.sent, none, none, 8⟩ : Message).created_at)).length ≤ 50 →
      ∀ m ∈ pagedStore.messages, m.conversation_id = 1 → m.deleted_at = none →
        m.created_at < (⟨8, 1, 10, MessageType.text, [], none, none, MessageStatus.sent,
          none, none, 8⟩ : Message).created_at →
        m ∈ messagesOf (get_messages 1 10 50 0 (some 8) pagedStore)) :=
  get_messages_before_pagination pagedStore 1 10 50 0 8
    ⟨8, 1, 10, MessageType.text, [], none, none, MessageStatus.sent, none, none, 8⟩
    (by decide) (by decide)

end Chat
